import Mathlib

/-!
Verification of the web-agent repository: a shallow embedding of
src/agent/custom_openai_client.py and src/vision_scraper.py.

JSON values are modelled by the inductive type JVal; Python dicts carrying
JSON data are insertion-ordered association lists over String keys.
Network traffic is modelled by a transport oracle mapping a Request to a
TransportResult; the functions under verification return, alongside their
Except-valued outcome (an Except.error models a raised Python exception
whose payload is the exception message), the list of requests they issued.
-/

/-- JSON values. Numbers are modelled as rationals; the code under
verification never computes with them, it only carries them. -/
inductive JVal where
  | null : JVal
  | bool : Bool → JVal
  | num : ℚ → JVal
  | str : String → JVal
  | arr : List JVal → JVal
  | obj : List (String × JVal) → JVal

/-- Python dict lookup d[k] restricted to success, i.e. d.get(k):
first entry with the given key (keys are unique in a real dict). -/
def dlookup (d : List (String × JVal)) (k : String) : Option JVal :=
  match d with
  | [] => none
  | kv :: rest => if kv.1 = k then some kv.2 else dlookup rest k

/-- Python dict assignment d[k] = v: update the existing entry in place
if the key is present, otherwise append a new entry. -/
def dictInsert (d : List (String × JVal)) (k : String) (v : JVal) :
    List (String × JVal) :=
  if (dlookup d k).isSome then
    d.map (fun kv => if kv.1 = k then (k, v) else kv)
  else
    d ++ [(k, v)]

/-- Folding dict assignments over a list of key-value pairs: the semantics
of the ** splice in a Python dict display, applied after the named entries. -/
def dictUpdate (d : List (String × JVal)) (kws : List (String × JVal)) :
    List (String × JVal) :=
  kws.foldl (fun acc kv => dictInsert acc kv.1 kv.2) d

/-- Value of the last entry with the given key, if any: in a sequence of
dict assignments the last write wins. -/
def findLast (l : List (String × JVal)) (k : String) : Option JVal :=
  match l with
  | [] => none
  | kv :: rest =>
      Option.or (findLast rest k) (if kv.1 = k then some kv.2 else none)

theorem dlookup_map_update (d : List (String × JVal)) (k : String) (v : JVal)
    (k' : String) :
    dlookup (d.map (fun kv => if kv.1 = k then (k, v) else kv)) k' =
      if k' = k then (if (dlookup d k).isSome then some v else none)
      else dlookup d k' := by
  induction d with
  | nil => by_cases hk' : k' = k <;> simp [dlookup, hk']
  | cons kv rest ih =>
    by_cases hk : kv.1 = k
    · by_cases hk' : k' = k
      · subst hk'
        simp [dlookup, hk]
      · have h1 : ¬ k = k' := fun h => hk' h.symm
        have h2 : ¬ kv.1 = k' := fun h => hk' (h.symm.trans hk)
        simp [dlookup, hk, h1, h2, hk', ih]
    · by_cases hk' : kv.1 = k'
      · have h1 : ¬ k' = k := fun h => hk (hk'.trans h)
        simp [dlookup, hk, hk', h1]
      · simp [dlookup, hk, hk', ih]

theorem dlookup_append_single (d : List (String × JVal)) (k : String) (v : JVal)
    (k' : String) :
    dlookup (d ++ [(k, v)]) k' =
      Option.or (dlookup d k') (if k' = k then some v else none) := by
  induction d with
  | nil =>
    by_cases hk : k = k'
    · subst hk
      simp [dlookup, Option.or]
    · have h1 : ¬ k' = k := fun h => hk h.symm
      simp [dlookup, hk, h1, Option.or]
  | cons kv rest ih =>
    by_cases hk : kv.1 = k'
    · simp [dlookup, hk, Option.or]
    · simp [dlookup, hk, ih]

theorem dlookup_dictInsert (d : List (String × JVal)) (k k' : String) (v : JVal) :
    dlookup (dictInsert d k v) k' =
      if k' = k then some v else dlookup d k' := by
  unfold dictInsert
  by_cases hfind : (dlookup d k).isSome
  · rw [if_pos hfind, dlookup_map_update]
    by_cases hk' : k' = k <;> simp [hk', hfind]
  · rw [if_neg hfind, dlookup_append_single]
    by_cases hk' : k' = k
    · subst hk'
      have hnone : dlookup d k' = none := Option.not_isSome_iff_eq_none.mp hfind
      simp [hnone, Option.or]
    · rw [if_neg hk']
      cases dlookup d k' <;> simp [Option.or, hk']

theorem dlookup_dictUpdate (kws : List (String × JVal)) (d : List (String × JVal))
    (k : String) :
    dlookup (dictUpdate d kws) k = Option.or (findLast kws k) (dlookup d k) := by
  induction kws generalizing d with
  | nil => simp [dictUpdate, findLast, Option.or]
  | cons kv rest ih =>
    have step : dictUpdate d (kv :: rest) = dictUpdate (dictInsert d kv.1 kv.2) rest := rfl
    rw [step, ih, dlookup_dictInsert, findLast]
    by_cases hk : kv.1 = k
    · rw [if_pos hk.symm, if_pos hk]
      cases findLast rest k <;> simp [Option.or]
    · have h1 : ¬ k = kv.1 := fun h => hk h.symm
      rw [if_neg h1, if_neg hk]
      cases findLast rest k <;> simp [Option.or]

/-! ## Response data model (classes ChatCompletion, Choice, Message) -/

/-- Message: content and role as stored by Message.__init__ via dict.get,
which returns the raw value or None. -/
structure Message where
  content : Option JVal
  role : Option JVal

/-- Choice: message, index, finish_reason as stored by Choice.__init__. -/
structure Choice where
  message : Message
  index : Option JVal
  finish_reason : Option JVal

/-- ChatCompletion: choices plus the five passthrough fields stored by
ChatCompletion.__init__. -/
structure ChatCompletion where
  choices : List Choice
  id : Option JVal
  object : Option JVal
  created : Option JVal
  model : Option JVal
  usage : Option JVal

/-- Message.__init__(message_data): .get of content and role. A value that
is not a dict makes the .get attribute access raise, modelled as
Except.error carrying the exception message. -/
def Message.ofData : JVal → Except String Message
  | .obj kvs => .ok ⟨dlookup kvs "content", dlookup kvs "role"⟩
  | _ => .error "AttributeError: get"

/-- Python iteration over a JSON value, as in the list comprehension of
ChatCompletion.__init__: lists yield their elements, strings their
characters as one-character strings, dicts their keys; other values raise
TypeError. -/
def pyIter : JVal → Except String (List JVal)
  | .arr l => .ok l
  | .str s => .ok (s.data.map (fun c => .str (String.mk [c])))
  | .obj kvs => .ok (kvs.map (fun kv => .str kv.1))
  | _ => .error "TypeError: not iterable"

/-- Choice.__init__(choice_data): the message field defaults to the empty
dict when absent; a raised exception propagates. -/
def Choice.ofData : JVal → Except String Choice
  | .obj kvs =>
    match Message.ofData ((dlookup kvs "message").getD (.obj [])) with
    | .error e => .error e
    | .ok msg => .ok ⟨msg, dlookup kvs "index", dlookup kvs "finish_reason"⟩
  | _ => .error "AttributeError: get"

/-- The list comprehension building Choice objects, in order, stopping at
the first failure (a raised exception aborts the comprehension). -/
def Choice.ofDataList : List JVal → Except String (List Choice)
  | [] => .ok []
  | c :: rest =>
    match Choice.ofData c with
    | .error e => .error e
    | .ok ch =>
      match Choice.ofDataList rest with
      | .error e => .error e
      | .ok t => .ok (ch :: t)

/-- ChatCompletion.__init__(response_data): choices defaults to the empty
list when absent; the other five fields are raw .get results. -/
def ChatCompletion.ofData : JVal → Except String ChatCompletion
  | .obj kvs =>
    match pyIter ((dlookup kvs "choices").getD (.arr [])) with
    | .error e => .error e
    | .ok items =>
      match Choice.ofDataList items with
      | .error e => .error e
      | .ok chs =>
        .ok ⟨chs, dlookup kvs "id", dlookup kvs "object", dlookup kvs "created",
             dlookup kvs "model", dlookup kvs "usage"⟩
  | _ => .error "AttributeError: get"

/-! ## Client construction (CustomOpenAIClient.__init__) -/

/-- Python truthiness of an optional string: None and the empty string are
falsy; every other string is truthy. -/
def pyTruthy : Option String → Bool
  | none => false
  | some s => s ≠ ""

/-- str.rstrip with the single character "/": drop every trailing slash. -/
def rstripSlashes (s : String) : String :=
  String.mk ((s.data.reverse.dropWhile (fun c => c = '/')).reverse)

/-- The default base_url of CustomOpenAIClient.__init__. -/
def defaultBaseUrl : String := "https://api.omnia.reainternal.net"

/-- The ValueError message raised when no API key resolves. -/
def apiKeyRequiredMsg : String :=
  "API key is required. Set OPENAI_API_KEY environment variable or pass api_key parameter."

/-- A constructed client: the stored credential and base URL, both immutable
after construction. -/
structure CustomOpenAIClient where
  api_key : String
  base_url : String

/-- CustomOpenAIClient.__init__: api_key is the explicit argument if truthy,
else the value of the OPENAI_API_KEY environment variable (the env
parameter, None when unset); base_url is stored with trailing slashes
stripped; a falsy resolved key raises ValueError. The function takes no
transport oracle: construction can issue no network request. -/
def CustomOpenAIClient.init (api_key : Option String) (env : Option String)
    (base_url : String) : Except String CustomOpenAIClient :=
  let key := if pyTruthy api_key then api_key else env
  if pyTruthy key then .ok ⟨key.getD "", rstripSlashes base_url⟩
  else .error apiKeyRequiredMsg

/-! ## HTTP transport model and _make_chat_request -/

/-- An outbound HTTP POST as assembled by _make_chat_request. -/
structure Request where
  url : String
  headers : List (String × String)
  payload : List (String × JVal)

/-- An HTTP response: status code, reason phrase, raw body text, and the
outcome of response.json() on that body (Except.error carries the
JSONDecodeError message when the body is not valid JSON). -/
structure HttpResponse where
  status : Nat
  reason : String
  text : String
  body : Except String JVal

/-- Outcome of requests.post: a response, or a network-level
RequestException with no response attached (connection refused, DNS
failure, transport timeout), carrying str(e). -/
inductive TransportResult where
  | resp : HttpResponse → TransportResult
  | netError : String → TransportResult

/-- requests Response.raise_for_status raises exactly for status codes in
[400, 600): 4xx client errors and 5xx server errors. -/
def isErrorStatus (s : Nat) : Bool :=
  decide (400 ≤ s) && decide (s < 600)

mutual

/-- Python str() of a JSON value: scalar cases follow CPython; container
cases are rendered structurally (only scalars reach a claim). -/
def pyStr : JVal → String
  | .null => "None"
  | .bool b => if b then "True" else "False"
  | .num q => toString q
  | .str s => s
  | .arr l => "[" ++ pyStrItems l ++ "]"
  | .obj kvs => "\x7b" ++ pyStrEntries kvs ++ "\x7d"

def pyStrItems : List JVal → String
  | [] => ""
  | [v] => pyStr v
  | v :: rest => pyStr v ++ ", " ++ pyStrItems rest

def pyStrEntries : List (String × JVal) → String
  | [] => ""
  | [(k, v)] => k ++ ": " ++ pyStr v
  | (k, v) :: rest => k ++ ": " ++ pyStr v ++ ", " ++ pyStrEntries rest

end

/-- str of the HTTPError raised by raise_for_status, as formatted by the
requests library. -/
def httpErrorStr (r : HttpResponse) (url : String) : String :=
  if r.status < 500 then
    toString r.status ++ " Client Error: " ++ r.reason ++ " for url: " ++ url
  else
    toString r.status ++ " Server Error: " ++ r.reason ++ " for url: " ++ url

/-- The RequestException handler of _make_chat_request when the exception
carries a response: try response.json() and read error.message with str(e)
as the default; any exception inside that try (body not valid JSON, or a
.get on a non-dict) falls to the bare except, which formats the status
code and the raw body text. -/
def httpErrorMessage (r : HttpResponse) (estr : String) : String :=
  match r.body with
  | .error _ => "HTTP " ++ toString r.status ++ ": " ++ r.text
  | .ok (.obj kvs) =>
    match dlookup kvs "error" with
    | none => estr
    | some (.obj ekvs) =>
      match dlookup ekvs "message" with
      | none => estr
      | some v => pyStr v
    | some _ => "HTTP " ++ toString r.status ++ ": " ++ r.text
  | .ok _ => "HTTP " ++ toString r.status ++ ": " ++ r.text

/-- The fixed resource path appended to the base URL. -/
def chatCompletionsPath : String := "/v1/chat/completions"

/-- _get_headers: bearer authorization, JSON content type, client
signature. -/
def requestHeaders (c : CustomOpenAIClient) : List (String × String) :=
  [("Authorization", "Bearer " ++ c.api_key),
   ("Content-Type", "application/json"),
   ("User-Agent", "CustomOpenAIClient/1.0")]

/-- The payload dict display of _make_chat_request: the four named entries
in order, then the ** splice of kwargs (later assignments overwrite). -/
def mergedPayload (model messages max_tokens temperature : JVal)
    (kwargs : List (String × JVal)) : List (String × JVal) :=
  dictUpdate [("model", model), ("messages", messages),
              ("max_tokens", max_tokens), ("temperature", temperature)] kwargs

/-- The try/except ladder of _make_chat_request around the one POST.
A RequestException without a response (network failure) surfaces str(e);
raise_for_status failures surface the extracted upstream message. When
response.json() fails on a passing status, the library (requests 2.27 and
later, the versions contemporaneous with this code and unpinned by it)
raises requests.exceptions.JSONDecodeError, a RequestException subclass
carrying no response, so the FIRST except clause catches it and surfaces
str(e), the JSON error detail: the dedicated except json.JSONDecodeError
clause of the source is shadowed and dead for this path. An exception
while building ChatCompletion objects takes the final catch-all branch. -/
def handleTransport (url : String) (tr : TransportResult) :
    Except String ChatCompletion :=
  match tr with
  | .netError msg => .error ("API request failed: " ++ msg)
  | .resp r =>
    if isErrorStatus r.status then
      .error ("API request failed: " ++ httpErrorMessage r (httpErrorStr r url))
    else
      match r.body with
      | .error jmsg => .error ("API request failed: " ++ jmsg)
      | .ok j =>
        match ChatCompletion.ofData j with
        | .ok comp => .ok comp
        | .error emsg => .error ("Unexpected error: " ++ emsg)

/-- CustomOpenAIClient._make_chat_request: build the URL, payload and
headers, issue one POST through the transport oracle, and translate the
outcome. The second component is the list of requests issued, always the
one assembled request. -/
def make_chat_request (c : CustomOpenAIClient)
    (model messages max_tokens temperature : JVal)
    (kwargs : List (String × JVal)) (transport : Request → TransportResult) :
    Except String ChatCompletion × List Request :=
  let url := c.base_url ++ chatCompletionsPath
  let payload := mergedPayload model messages max_tokens temperature kwargs
  let req : Request := ⟨url, requestHeaders c, payload⟩
  (handleTransport url (transport req), [req])

/-- ChatCompletions.create: delegates to _make_chat_request of the client
with the same arguments (the Python defaults are max_tokens 1000 and
temperature 0.1). -/
def create (c : CustomOpenAIClient)
    (model messages max_tokens temperature : JVal)
    (kwargs : List (String × JVal)) (transport : Request → TransportResult) :
    Except String ChatCompletion × List Request :=
  make_chat_request c model messages max_tokens temperature kwargs transport

/-! ## Workflow layer (vision_scraper.py) -/

/-- The conventional screenshot location used by take_screenshot. -/
def screenshotPath : String := "screenshot.jpg"

/-- The removal step at the top of take_screenshot: if a file exists at the
conventional path, os.remove it. The filesystem is the list of existing
paths. -/
def removeExistingScreenshot (fs : List String) : List String :=
  if screenshotPath ∈ fs then fs.filter (fun p => p ≠ screenshotPath) else fs

/-- Outcome of the subprocess.run call on the Node screenshot script:
completion with a return code and captured stderr, or TimeoutExpired. -/
inductive SubprocResult where
  | completed : Int → String → SubprocResult
  | timedOut : SubprocResult

/-- VisionScraper.take_screenshot: remove any existing screenshot, then run
the external script on the resulting filesystem state. The second
component records the filesystem states at which the external process was
invoked (always exactly one). A TimeoutExpired handler raises its own
fixed message; a non-zero return code raises inside the try block and is
re-wrapped by the outer handler. -/
def take_screenshot (fs : List String)
    (run : List String → SubprocResult) :
    Except String String × List (List String) :=
  let fs1 := removeExistingScreenshot fs
  match run fs1 with
  | .timedOut => (.error "Screenshot process timed out", [fs1])
  | .completed rc errtext =>
    if rc ≠ 0 then
      (.error ("Error taking screenshot: Screenshot script failed: " ++ errtext), [fs1])
    else
      (.ok screenshotPath, [fs1])

/-- The tagged dictionary returned by scrape_and_analyze. -/
inductive ScrapeResult where
  | success : String → String → String → ScrapeResult
  | failure : String → String → ScrapeResult

/-- VisionScraper.scrape_and_analyze: run the screenshot step, then the
analysis step, inside one try block; any raised exception is converted at
this boundary into the failure dictionary carrying str(e). The two steps
are oracles returning their outcome (Except.error models a raised
exception). -/
def scrape_and_analyze (takeShot : String → Nat → Except String String)
    (analyze : String → String → Except String String)
    (url prompt : String) (timeout : Nat) : ScrapeResult :=
  match takeShot url timeout with
  | .error e => .failure url e
  | .ok path =>
    match analyze path prompt with
    | .error e => .failure url e
    | .ok analysis => .success url path analysis

/-! ## Claims -/

/-- C1: every call to create issues exactly one POST, to the URL formed by
appending /v1/chat/completions to the base URL, and its JSON body is the
merged mapping of model, messages, max_tokens, temperature and the extra
parameters, an extra parameter overriding a named field of the same key
(last write wins). -/
theorem create_single_post_merged_body
    (c : CustomOpenAIClient) (model messages max_tokens temperature : JVal)
    (kwargs : List (String × JVal)) (transport : Request → TransportResult) :
    (create c model messages max_tokens temperature kwargs transport).2 =
      [⟨c.base_url ++ "/v1/chat/completions", requestHeaders c,
        mergedPayload model messages max_tokens temperature kwargs⟩] ∧
    (∀ k, dlookup (mergedPayload model messages max_tokens temperature kwargs) k =
      Option.or (findLast kwargs k)
        (dlookup [("model", model), ("messages", messages),
                  ("max_tokens", max_tokens), ("temperature", temperature)] k)) :=
  ⟨rfl, fun k => dlookup_dictUpdate kwargs _ k⟩

/-- C3: with no truthy explicit credential and no truthy environment value
the constructor raises the configuration ValueError (its type shows it can
issue no request); with a credential available it succeeds, storing the
resolved key and the base URL with all trailing slashes stripped (the
stored base URL never ends in a slash). -/
theorem init_requires_credential (api_key env : Option String) (base_url : String) :
    (¬ pyTruthy api_key = true → ¬ pyTruthy env = true →
      CustomOpenAIClient.init api_key env base_url = .error apiKeyRequiredMsg) ∧
    (pyTruthy api_key = true →
      CustomOpenAIClient.init api_key env base_url =
        .ok ⟨api_key.getD "", rstripSlashes base_url⟩) ∧
    (¬ pyTruthy api_key = true → pyTruthy env = true →
      CustomOpenAIClient.init api_key env base_url =
        .ok ⟨env.getD "", rstripSlashes base_url⟩) ∧
    (∀ ch, (rstripSlashes base_url).data.getLast? = some ch → ch ≠ '/') := by
  refine ⟨?_, ?_, ?_, ?_⟩
  · intro h1 h2
    simp only [CustomOpenAIClient.init]
    rw [if_neg h1, if_neg h2]
  · intro h1
    simp only [CustomOpenAIClient.init]
    rw [if_pos h1, if_pos h1]
  · intro h1 h2
    simp only [CustomOpenAIClient.init]
    rw [if_neg h1, if_pos h2]
  · intro ch hch hslash
    subst hslash
    rw [rstripSlashes] at hch
    rw [List.getLast?_reverse] at hch
    have := List.head?_dropWhile_not (fun c => c = '/') base_url.data.reverse
    rw [hch] at this
    simp at this

/-- C10: an explicit empty-string api_key is falsy, so construction behaves
exactly as if no key was passed: it falls back to the environment value,
and raises the configuration ValueError when that is unset or empty. -/
theorem init_empty_explicit_key_falls_back (env : Option String) (base_url : String) :
    CustomOpenAIClient.init (some "") env base_url =
      CustomOpenAIClient.init none env base_url ∧
    (¬ pyTruthy env = true →
      CustomOpenAIClient.init (some "") env base_url = .error apiKeyRequiredMsg) := by
  constructor
  · rfl
  · intro h
    unfold CustomOpenAIClient.init
    have hkey : (if pyTruthy (some "") = true then some "" else env) = env := rfl
    rw [hkey, if_neg h]

/-- C7: scrape_and_analyze is total with a tagged result: if both steps
succeed it returns the success dictionary with the url, screenshot path
and analysis; if either step raises, the exception is caught at this
boundary and the failure dictionary with the url and the failure message
is returned. -/
theorem scrape_and_analyze_tagged_result
    (takeShot : String → Nat → Except String String)
    (analyze : String → String → Except String String)
    (url prompt : String) (timeout : Nat) :
    (∀ path analysis, takeShot url timeout = .ok path →
        analyze path prompt = .ok analysis →
        scrape_and_analyze takeShot analyze url prompt timeout =
          .success url path analysis) ∧
    (∀ e, takeShot url timeout = .error e →
        scrape_and_analyze takeShot analyze url prompt timeout = .failure url e) ∧
    (∀ path e, takeShot url timeout = .ok path → analyze path prompt = .error e →
        scrape_and_analyze takeShot analyze url prompt timeout = .failure url e) := by
  refine ⟨?_, ?_, ?_⟩ <;> intros <;> simp [scrape_and_analyze, *]

/-- C7 witness: at concrete oracles, a failing screenshot step yields the
tagged failure and a succeeding pair yields the tagged success. -/
theorem scrape_and_analyze_tagged_result_witness :
    scrape_and_analyze (fun _ _ => .error "boom")
      (fun _ _ => .ok "fine") "https://example.com" "describe" 30000 =
      .failure "https://example.com" "boom" ∧
    scrape_and_analyze (fun _ _ => .ok "screenshot.jpg")
      (fun _ _ => .ok "a page") "https://example.com" "describe" 30000 =
      .success "https://example.com" "screenshot.jpg" "a page" :=
  ⟨(scrape_and_analyze_tagged_result (fun _ _ => .error "boom")
      (fun _ _ => .ok "fine") "https://example.com" "describe" 30000).2.1 "boom" rfl,
   (scrape_and_analyze_tagged_result (fun _ _ => .ok "screenshot.jpg")
      (fun _ _ => .ok "a page") "https://example.com" "describe" 30000).1
      "screenshot.jpg" "a page" rfl rfl⟩

/-- C8: on every invocation of take_screenshot, the filesystem state at
which the external screenshot process is invoked is the input state with
the conventional path removed, and that state never contains the
conventional path: a stale prior image cannot survive to the external
step. -/
theorem take_screenshot_removes_stale_image
    (fs : List String) (run : List String → SubprocResult) :
    (take_screenshot fs run).2 = [removeExistingScreenshot fs] ∧
    screenshotPath ∉ removeExistingScreenshot fs := by
  constructor
  · simp only [take_screenshot]
    cases h : run (removeExistingScreenshot fs) with
    | timedOut => simp [h]
    | completed rc errtext =>
      simp only [h]
      by_cases hrc : rc = 0 <;> simp [hrc]
  · unfold removeExistingScreenshot
    by_cases h : screenshotPath ∈ fs
    · rw [if_pos h]
      simp [List.mem_filter]
    · rw [if_neg h]
      exact h

/-- C9: decoding is total over objects with absent fields: a missing
choices key yields the empty choices list, a missing message key yields a
message with unset content and role, and every other missing key among id,
object, created, model, usage, index, finish_reason, content and role
yields an unset (none) field, never a raised exception. -/
theorem decode_missing_keys_total
    (kvs ckvs mkvs : List (String × JVal))
    (h1 : dlookup kvs "choices" = none)
    (h2 : dlookup ckvs "message" = none) :
    ChatCompletion.ofData (.obj kvs) =
      .ok ⟨[], dlookup kvs "id", dlookup kvs "object", dlookup kvs "created",
           dlookup kvs "model", dlookup kvs "usage"⟩ ∧
    Choice.ofData (.obj ckvs) =
      .ok ⟨⟨none, none⟩, dlookup ckvs "index", dlookup ckvs "finish_reason"⟩ ∧
    Message.ofData (.obj mkvs) =
      .ok ⟨dlookup mkvs "content", dlookup mkvs "role"⟩ := by
  refine ⟨?_, ?_, rfl⟩
  · simp [ChatCompletion.ofData, h1, pyIter, Choice.ofDataList]
  · simp [Choice.ofData, h2, Message.ofData, dlookup]

/-- C9 witness: concrete objects carrying none of the documented keys
decode to fully unset values. -/
theorem decode_missing_keys_total_witness :
    ChatCompletion.ofData (.obj [("unrelated", .str "x")]) =
      .ok ⟨[], none, none, none, none, none⟩ ∧
    Choice.ofData (.obj []) = .ok ⟨⟨none, none⟩, none, none⟩ ∧
    Message.ofData (.obj []) = .ok ⟨none, none⟩ :=
  decode_missing_keys_total [("unrelated", .str "x")] [] [] rfl rfl

/-- C3 witness: with no credential anywhere the concrete construction
fails with the configuration message, and with an explicit key it succeeds
and stores the key and the slash-stripped base URL. -/
theorem init_requires_credential_witness :
    CustomOpenAIClient.init none none "https://api.omnia.reainternal.net/" =
      .error apiKeyRequiredMsg ∧
    CustomOpenAIClient.init (some "sk-test") none "https://api.omnia.reainternal.net/" =
      .ok ⟨"sk-test", "https://api.omnia.reainternal.net"⟩ :=
  ⟨(init_requires_credential none none
      "https://api.omnia.reainternal.net/").1 (by simp [pyTruthy]) (by simp [pyTruthy]),
   by
    have h := (init_requires_credential (some "sk-test") none
      "https://api.omnia.reainternal.net/").2.1 rfl
    rw [h]
    rfl⟩

/-- C10 witness: at concrete inputs, an explicit empty key equals the
no-key construction, and with an empty environment value construction
fails with the configuration message. -/
theorem init_empty_explicit_key_falls_back_witness :
    CustomOpenAIClient.init (some "") none defaultBaseUrl =
      CustomOpenAIClient.init none none defaultBaseUrl ∧
    CustomOpenAIClient.init (some "") (some "") defaultBaseUrl =
      .error apiKeyRequiredMsg :=
  ⟨(init_empty_explicit_key_falls_back none defaultBaseUrl).1,
   (init_empty_explicit_key_falls_back (some "") defaultBaseUrl).2 (by simp [pyTruthy])⟩

/-- A choice entry matching the documented wire schema: an object whose
message field, when present, is itself an object. -/
def wfChoiceData : JVal → Bool
  | .obj kvs =>
    match dlookup kvs "message" with
    | none => true
    | some (.obj _) => true
    | some _ => false
  | _ => false

theorem Choice.ofData_isOk (v : JVal) (h : wfChoiceData v = true) :
    ∃ ch, Choice.ofData v = .ok ch := by
  cases v with
  | null => simp [wfChoiceData] at h
  | bool b => simp [wfChoiceData] at h
  | num q => simp [wfChoiceData] at h
  | str s => simp [wfChoiceData] at h
  | arr l => simp [wfChoiceData] at h
  | obj kvs =>
    cases hm : dlookup kvs "message" with
    | none =>
      exact ⟨⟨⟨none, none⟩, dlookup kvs "index", dlookup kvs "finish_reason"⟩,
        by simp [Choice.ofData, hm, Message.ofData, dlookup]⟩
    | some m =>
      cases m with
      | obj mkvs =>
        exact ⟨⟨⟨dlookup mkvs "content", dlookup mkvs "role"⟩,
          dlookup kvs "index", dlookup kvs "finish_reason"⟩,
          by simp [Choice.ofData, hm, Message.ofData]⟩
      | null => simp [wfChoiceData, hm] at h
      | bool b => simp [wfChoiceData, hm] at h
      | num q => simp [wfChoiceData, hm] at h
      | str s => simp [wfChoiceData, hm] at h
      | arr l => simp [wfChoiceData, hm] at h

theorem Choice.ofDataList_isOk (l : List JVal) (h : l.all wfChoiceData = true) :
    ∃ chs, Choice.ofDataList l = .ok chs := by
  induction l with
  | nil => exact ⟨[], rfl⟩
  | cons c rest ih =>
    rw [List.all_cons, Bool.and_eq_true] at h
    obtain ⟨ch, hch⟩ := Choice.ofData_isOk c h.1
    obtain ⟨chs, hchs⟩ := ih h.2
    exact ⟨ch :: chs, by simp [Choice.ofDataList, hch, hchs]⟩

theorem isErrorStatus_false_of_2xx (s : Nat) (hhi : s < 300) :
    isErrorStatus s = false := by
  unfold isErrorStatus
  rw [decide_eq_false (by omega : ¬ 400 ≤ s)]
  rfl

/-- C2: for a 2xx response whose body matches the documented schema and
whose first choice message content is the string s, create returns a
completion whose first choice message content is exactly s. -/
theorem create_roundtrip_first_choice_content
    (c : CustomOpenAIClient) (model messages max_tokens temperature : JVal)
    (kwargs : List (String × JVal)) (transport : Request → TransportResult)
    (r : HttpResponse) (kvs ckvs mkvs : List (String × JVal))
    (rest : List JVal) (s : String)
    (htr : transport ⟨c.base_url ++ chatCompletionsPath, requestHeaders c,
        mergedPayload model messages max_tokens temperature kwargs⟩ = .resp r)
    (hlo : 200 ≤ r.status) (hhi : r.status < 300)
    (hbody : r.body = .ok (.obj kvs))
    (hch : dlookup kvs "choices" = some (.arr (.obj ckvs :: rest)))
    (hwf : rest.all wfChoiceData = true)
    (hmsg : dlookup ckvs "message" = some (.obj mkvs))
    (hcontent : dlookup mkvs "content" = some (.str s)) :
    ∃ comp ch,
      (create c model messages max_tokens temperature kwargs transport).1 = .ok comp ∧
      comp.choices.head? = some ch ∧
      ch.message.content = some (.str s) := by
  obtain ⟨chs, hchs⟩ := Choice.ofDataList_isOk rest hwf
  have hrun : (create c model messages max_tokens temperature kwargs transport).1
      = handleTransport (c.base_url ++ chatCompletionsPath) (.resp r) := by
    simp only [create, make_chat_request]
    rw [htr]
  rw [hrun]
  simp only [handleTransport, isErrorStatus_false_of_2xx r.status hhi,
    Bool.false_eq_true, if_false, hbody, ChatCompletion.ofData, hch,
    Option.getD_some, pyIter, Choice.ofDataList, Choice.ofData, hmsg,
    Message.ofData, hchs, hcontent]
  exact ⟨_, _, rfl, rfl, rfl⟩

/-- C2 witness: a concrete 200 response with one schema-shaped choice
round-trips its content string through create. -/
theorem create_roundtrip_first_choice_content_witness :
    ∃ comp ch,
      (create ⟨"key", "https://api.example.com"⟩ (.str "gpt-4-vision-preview")
        (.arr []) (.num 1000) (.num 0) []
        (fun _ => .resp ⟨200, "OK", "",
          .ok (.obj [("id", .str "cmpl-1"),
            ("choices", .arr [.obj [("index", .num 0),
              ("message", .obj [("role", .str "assistant"),
                ("content", .str "hello page")]),
              ("finish_reason", .str "stop")]])])⟩)).1 = .ok comp ∧
      comp.choices.head? = some ch ∧
      ch.message.content = some (.str "hello page") :=
  create_roundtrip_first_choice_content ⟨"key", "https://api.example.com"⟩
    (.str "gpt-4-vision-preview") (.arr []) (.num 1000) (.num 0) []
    (fun _ => .resp ⟨200, "OK", "",
      .ok (.obj [("id", .str "cmpl-1"),
        ("choices", .arr [.obj [("index", .num 0),
          ("message", .obj [("role", .str "assistant"),
            ("content", .str "hello page")]),
          ("finish_reason", .str "stop")]])])⟩)
    ⟨200, "OK", "",
      .ok (.obj [("id", .str "cmpl-1"),
        ("choices", .arr [.obj [("index", .num 0),
          ("message", .obj [("role", .str "assistant"),
            ("content", .str "hello page")]),
          ("finish_reason", .str "stop")]])])⟩
    [("id", .str "cmpl-1"),
     ("choices", .arr [.obj [("index", .num 0),
       ("message", .obj [("role", .str "assistant"),
         ("content", .str "hello page")]),
       ("finish_reason", .str "stop")]])]
    [("index", .num 0),
     ("message", .obj [("role", .str "assistant"),
       ("content", .str "hello page")]),
     ("finish_reason", .str "stop")]
    [("role", .str "assistant"), ("content", .str "hello page")]
    [] "hello page" rfl (by decide) (by decide) rfl rfl rfl rfl rfl

/-- C4: at the failing input, a 200 response whose body is not valid
JSON, the raised message takes the transport-failure shape: the requests
JSONDecodeError is a RequestException subclass with no response attached,
so the first handler surfaces str(e) and the dedicated parse-failure
clause of the source never runs. The distinct DecodeError message the
claim (and the source's own except json.JSONDecodeError clause) calls for
is not what the code produces. -/
theorem create_2xx_invalid_json_transport_shape :
    (create ⟨"key", "https://api.example.com"⟩ (.str "gpt-4-vision-preview")
        (.arr []) (.num 1000) (.num 0) []
        (fun _ => .resp ⟨200, "OK", "<html>",
          .error "Expecting value: line 1 column 1 (char 0)"⟩)).1
      = .error "API request failed: Expecting value: line 1 column 1 (char 0)" :=
  rfl

/-- C5 counterexample: a non-2xx status below 400 (here 304) with the body
error.message rate limited raises nothing: raise_for_status passes it and
create returns a ChatCompletion decoded from the error body (no choices),
so the claim quantified over every non-2xx response is false. -/
theorem create_non2xx_error_message_counterexample :
    (create ⟨"key", "https://api.example.com"⟩ (.str "gpt-4-vision-preview")
        (.arr []) (.num 1000) (.num 0) []
        (fun _ => .resp ⟨304, "Not Modified",
          "\x7b\"error\": \x7b\"message\": \"rate limited\"\x7d\x7d",
          .ok (.obj [("error", .obj [("message", .str "rate limited")])])⟩)).1
      = .ok ⟨[], none, none, none, none, none⟩ := rfl

/-- C5 amended: for every response whose status raise_for_status treats as
an error (400 to 599) and whose body is the JSON object error.message m
with m a string, create raises the transport failure whose message is the
fixed transport text followed by m, hence contains m. -/
theorem create_error_status_error_message_surfaced
    (c : CustomOpenAIClient) (model messages max_tokens temperature : JVal)
    (kwargs : List (String × JVal)) (transport : Request → TransportResult)
    (r : HttpResponse) (kvs ekvs : List (String × JVal)) (m : String)
    (htr : transport ⟨c.base_url ++ chatCompletionsPath, requestHeaders c,
        mergedPayload model messages max_tokens temperature kwargs⟩ = .resp r)
    (hlo : 400 ≤ r.status) (hhi : r.status < 600)
    (hbody : r.body = .ok (.obj kvs))
    (herr : dlookup kvs "error" = some (.obj ekvs))
    (hmsg : dlookup ekvs "message" = some (.str m)) :
    (create c model messages max_tokens temperature kwargs transport).1 =
      .error ("API request failed: " ++ m) := by
  have hs : isErrorStatus r.status = true := by
    unfold isErrorStatus
    rw [decide_eq_true hlo, decide_eq_true hhi]
    rfl
  have hrun : (create c model messages max_tokens temperature kwargs transport).1
      = handleTransport (c.base_url ++ chatCompletionsPath) (.resp r) := by
    simp only [create, make_chat_request]
    rw [htr]
  rw [hrun]
  simp only [handleTransport, hs, if_true, httpErrorMessage, hbody, herr, hmsg, pyStr]

/-- C5 amended witness: a concrete 429 response carrying error.message
rate limited raises the transport failure containing rate limited. -/
theorem create_error_status_error_message_surfaced_witness :
    (create ⟨"key", "https://api.example.com"⟩ (.str "gpt-4-vision-preview")
        (.arr []) (.num 1000) (.num 0) []
        (fun _ => .resp ⟨429, "Too Many Requests",
          "\x7b\"error\": \x7b\"message\": \"rate limited\"\x7d\x7d",
          .ok (.obj [("error", .obj [("message", .str "rate limited")])])⟩)).1
      = .error ("API request failed: rate limited") :=
  create_error_status_error_message_surfaced ⟨"key", "https://api.example.com"⟩
    (.str "gpt-4-vision-preview") (.arr []) (.num 1000) (.num 0) []
    (fun _ => .resp ⟨429, "Too Many Requests",
      "\x7b\"error\": \x7b\"message\": \"rate limited\"\x7d\x7d",
      .ok (.obj [("error", .obj [("message", .str "rate limited")])])⟩)
    ⟨429, "Too Many Requests",
      "\x7b\"error\": \x7b\"message\": \"rate limited\"\x7d\x7d",
      .ok (.obj [("error", .obj [("message", .str "rate limited")])])⟩
    [("error", .obj [("message", .str "rate limited")])]
    [("message", .str "rate limited")] "rate limited"
    rfl (by decide) (by decide) rfl rfl rfl

/-- C6 counterexample: a non-2xx status below 400 (here 304) with an
unparsable body passes raise_for_status, and the JSON decode failure is
surfaced through the first handler as the JSON error detail, a message
containing neither the status code 304 nor the raw body text, so the
claim quantified over every non-2xx response is false. -/
theorem create_non2xx_nonjson_counterexample :
    (create ⟨"key", "https://api.example.com"⟩ (.str "gpt-4-vision-preview")
        (.arr []) (.num 1000) (.num 0) []
        (fun _ => .resp ⟨304, "Not Modified", "stale garbage",
          .error "Expecting value: line 1 column 1 (char 0)"⟩)).1
      = .error "API request failed: Expecting value: line 1 column 1 (char 0)" :=
  rfl

/-- C6 amended: for every response whose status raise_for_status treats as
an error (400 to 599) and whose body is not valid JSON, create raises the
transport failure whose message carries the numeric status code and the
raw body text. -/
theorem create_error_status_nonjson_status_text
    (c : CustomOpenAIClient) (model messages max_tokens temperature : JVal)
    (kwargs : List (String × JVal)) (transport : Request → TransportResult)
    (r : HttpResponse) (jmsg : String)
    (htr : transport ⟨c.base_url ++ chatCompletionsPath, requestHeaders c,
        mergedPayload model messages max_tokens temperature kwargs⟩ = .resp r)
    (hlo : 400 ≤ r.status) (hhi : r.status < 600)
    (hbad : r.body = .error jmsg) :
    (create c model messages max_tokens temperature kwargs transport).1 =
      .error ("API request failed: " ++
        ("HTTP " ++ toString r.status ++ ": " ++ r.text)) := by
  have hs : isErrorStatus r.status = true := by
    unfold isErrorStatus
    rw [decide_eq_true hlo, decide_eq_true hhi]
    rfl
  have hrun : (create c model messages max_tokens temperature kwargs transport).1
      = handleTransport (c.base_url ++ chatCompletionsPath) (.resp r) := by
    simp only [create, make_chat_request]
    rw [htr]
  rw [hrun]
  simp only [handleTransport, hs, if_true, httpErrorMessage, hbad]

/-- C6 amended witness: a concrete 502 response with a non-JSON body
raises the transport failure carrying 502 and the raw text. -/
theorem create_error_status_nonjson_status_text_witness :
    (create ⟨"key", "https://api.example.com"⟩ (.str "gpt-4-vision-preview")
        (.arr []) (.num 1000) (.num 0) []
        (fun _ => .resp ⟨502, "Bad Gateway", "upstream exploded",
          .error "Expecting value: line 1 column 1 (char 0)"⟩)).1
      = .error "API request failed: HTTP 502: upstream exploded" :=
  create_error_status_nonjson_status_text ⟨"key", "https://api.example.com"⟩
    (.str "gpt-4-vision-preview") (.arr []) (.num 1000) (.num 0) []
    (fun _ => .resp ⟨502, "Bad Gateway", "upstream exploded",
      .error "Expecting value: line 1 column 1 (char 0)"⟩)
    ⟨502, "Bad Gateway", "upstream exploded",
      .error "Expecting value: line 1 column 1 (char 0)"⟩
    "Expecting value: line 1 column 1 (char 0)"
    rfl (by decide) (by decide) rfl
